import Mathlib

/-!
Verification of the `VolumeEMAStrategy` trading strategy
(`src/strategies/BigFrish/__init__.py`).

The strategy is a single Python class built on an external trading
framework.  We shallowly embed its decision logic:

* Host-supplied data (candle window, indicator series, current
  open/close/price) becomes an explicit `State` record.  Candles are
  records of rationals; indicator series (`ema_volume`, `ema_trend`,
  `volume_rsi`) are rational lists computed by the external indicator
  library, hence taken as inputs.
* The hyperparameter mapping becomes the `HParams` record, one field per
  entry of `hyperparameters()`.
* Pure computations (`ema_volume_growth`, `consecutive_volume_bars`, the
  filter checks, `volume_spike`, `should_long`, `should_short`) become
  Lean functions over `State` and `HParams`.
* `go_long`/`go_short` return the order instructions they would write
  (`self.buy`, `self.take_profit`, `self.stop_loss`), with the externally
  computed quantity (`utils.size_to_qty`) passed as an argument.
* `update_position` becomes a function from the current stop-loss order
  to the new one; the framework stores stop orders as (qty, price) rows
  and this strategy only ever sets a single row, so a stop-loss order is
  one pair.
* The Telegram notification path is embedded in an exception monad
  `Except String`: the outcome of the external `requests.post` call is an
  oracle argument (`HttpOutcome`), raising is `Except.error`, and the
  Python `try/except Exception` catch is the corresponding match.  The
  embedded functions additionally report whether an HTTP call was
  attempted, and thread the strategy's order/flag state through to show
  it is untouched.

Python `x[-1]` / `x[-k-1]` indexing on the nonempty lists the source
assumes is rendered with `List.getD` at index `length - k - 1`.
-/

namespace BigFrish

/-- One OHLCV candle.  The framework stores candles as rows
`[timestamp, open, close, high, low, volume]`; the strategy reads
column 2 (close), column 5 (volume) and, via `self.open`, column 1. -/
structure Candle where
  timestamp : ℚ
  openPrice : ℚ
  closePrice : ℚ
  high : ℚ
  low : ℚ
  volume : ℚ
deriving Repr, DecidableEq

/-- The hyperparameter set declared by `hyperparameters()`, one field per
entry, in source order.  `openPrice` style renaming is not needed here;
all names are the source names. -/
structure HParams where
  ema_volume_length : ℕ
  volume_multiplier : ℚ
  ema_price_trend : ℕ
  use_volume_growth : Bool
  min_growth_percent : ℚ
  growth_lookback : ℕ
  use_sustained_volume : Bool
  min_consecutive_bars : ℕ
  use_volume_rsi : Bool
  min_volume_rsi : ℚ
  tp_percent : ℚ
  sl_percent : ℚ
  use_trailing_stop : Bool
  trail_activation : ℚ
  trail_offset : ℚ
  use_ema_sl : Bool
  telegram_token : String
  telegram_chat_id : String
deriving Repr, DecidableEq

/-- A per-tick snapshot of everything the strategy reads from the host
framework: the candle window, the three indicator series (computed by the
external `ta.ema` / `ta.rsi` on the window), and the `self.open`,
`self.close`, `self.price` accessors.  `openPrice` renames `self.open`
(`open` is a Lean keyword). -/
structure State where
  candles : List Candle
  ema_volume : List ℚ
  ema_trend : List ℚ
  volume_rsi : List ℚ
  openPrice : ℚ
  close : ℚ
  price : ℚ
deriving Repr, DecidableEq

/-- Python `xs[-1]` on the nonempty arrays the source assumes. -/
def latest (l : List ℚ) : ℚ :=
  l.getD (l.length - 1) 0

/-- Property `current_volume`: `self.candles[-1, 5]`. -/
def current_volume (s : State) : ℚ :=
  latest (s.candles.map Candle.volume)

/-- Property `ema_volume_growth`: percent growth of the volume EMA over
`growth_lookback` bars, `0` when history is shorter than `lookback + 1`
or when the past EMA value is `0`. -/
def ema_volume_growth (s : State) (hp : HParams) : ℚ :=
  let lookback := hp.growth_lookback
  if s.ema_volume.length < lookback + 1 then 0
  else
    let current_ema := s.ema_volume.getD (s.ema_volume.length - 1) 0
    let past_ema := s.ema_volume.getD (s.ema_volume.length - (lookback + 1)) 0
    if past_ema = 0 then 0
    else ((current_ema - past_ema) / past_ema) * 100

/-- The loop of `consecutive_volume_bars`: scan indices `i-1, i-2, …, 0`,
counting while `candles[i, 5] > ema_volume[i]`, stopping at the first
failure. -/
def consecCount (vols emas : List ℚ) : ℕ → ℕ
  | 0 => 0
  | i + 1 => if vols.getD i 0 > emas.getD i 0 then consecCount vols emas i + 1 else 0

/-- Property `consecutive_volume_bars`: number of consecutive most-recent
candles whose volume exceeds the volume EMA at that bar.  The loop runs
from `len(self.candles) - 1` down to `0`. -/
def consecutive_volume_bars (s : State) : ℕ :=
  consecCount (s.candles.map Candle.volume) s.ema_volume s.candles.length

/-- Filter `check_volume_growth`: passes when the filter is off, otherwise
requires `ema_volume_growth >= min_growth_percent`. -/
def check_volume_growth (s : State) (hp : HParams) : Bool :=
  if !hp.use_volume_growth then true
  else decide (ema_volume_growth s hp ≥ hp.min_growth_percent)

/-- Filter `check_sustained_volume`: passes when the filter is off, otherwise
requires `consecutive_volume_bars >= min_consecutive_bars`. -/
def check_sustained_volume (s : State) (hp : HParams) : Bool :=
  if !hp.use_sustained_volume then true
  else decide (consecutive_volume_bars s ≥ hp.min_consecutive_bars)

/-- Filter `check_volume_rsi_filter`: passes when the filter is off, otherwise
requires `volume_rsi[-1] >= min_volume_rsi`. -/
def check_volume_rsi_filter (s : State) (hp : HParams) : Bool :=
  if !hp.use_volume_rsi then true
  else decide (latest s.volume_rsi ≥ hp.min_volume_rsi)

/-- Predicate `volume_spike`: `current_volume > ema_volume[-1] * volume_multiplier`. -/
def volume_spike (s : State) (hp : HParams) : Bool :=
  decide (current_volume s > latest s.ema_volume * hp.volume_multiplier)

/-- Entry condition `should_long`: bullish candle, above trend EMA, volume spike, and the
three optional volume filters. -/
def should_long (s : State) (hp : HParams) : Bool :=
  let is_bullish := decide (s.close > s.openPrice)
  let above_trend := decide (s.close > latest s.ema_trend)
  let volume_ok := volume_spike s hp
  let growth_ok := check_volume_growth s hp
  let sustained_ok := check_sustained_volume s hp
  let rsi_ok := check_volume_rsi_filter s hp
  is_bullish && above_trend && volume_ok && growth_ok && sustained_ok && rsi_ok

/-- Entry condition `should_short`: bearish candle, below trend EMA, volume spike, and
the three optional volume filters. -/
def should_short (s : State) (hp : HParams) : Bool :=
  let is_bearish := decide (s.close < s.openPrice)
  let below_trend := decide (s.close < latest s.ema_trend)
  let volume_ok := volume_spike s hp
  let growth_ok := check_volume_growth s hp
  let sustained_ok := check_sustained_volume s hp
  let rsi_ok := check_volume_rsi_filter s hp
  is_bearish && below_trend && volume_ok && growth_ok && sustained_ok && rsi_ok

/-- Order instructions written by `go_long` / `go_short`: the values
assigned to `self.buy` / `self.sell` / `self.take_profit` /
`self.stop_loss`, each a `(qty, price)` pair. -/
structure Orders where
  buy : Option (ℚ × ℚ)
  sell : Option (ℚ × ℚ)
  take_profit : Option (ℚ × ℚ)
  stop_loss : Option (ℚ × ℚ)
deriving Repr, DecidableEq

/-- Method `go_long`: take-profit at `price + price * tp_percent / 100`,
stop-loss at `ema_trend[-1]` when `use_ema_sl` else
`price - price * sl_percent / 100`.  `qty` is the externally computed
`position_size` (`utils.size_to_qty`). -/
def go_long (s : State) (hp : HParams) (qty : ℚ) : Orders :=
  let tp := s.price + s.price * hp.tp_percent / 100
  let sl := if hp.use_ema_sl then latest s.ema_trend
            else s.price - s.price * hp.sl_percent / 100
  ⟨some (qty, s.price), none, some (qty, tp), some (qty, sl)⟩

/-- Method `go_short`: mirror image of `go_long`. -/
def go_short (s : State) (hp : HParams) (qty : ℚ) : Orders :=
  let tp := s.price - s.price * hp.tp_percent / 100
  let sl := if hp.use_ema_sl then latest s.ema_trend
            else s.price + s.price * hp.sl_percent / 100
  ⟨none, some (qty, s.price), some (qty, tp), some (qty, sl)⟩

/-- Open-position data read by `update_position`. -/
structure Position where
  entry_price : ℚ
  qty : ℚ
deriving Repr, DecidableEq

/-- Position side: `self.is_long` / `self.is_short` / neither. -/
inductive Side
  | long
  | short
  | flat
deriving Repr, DecidableEq

/-- Method `update_position`: trailing-stop update.  Takes the current stop-loss
order (`self.stop_loss[0]` as a `(qty, price)` pair) and returns the
stop-loss order after the call. -/
def update_position (s : State) (hp : HParams) (side : Side) (pos : Position)
    (stop_loss : ℚ × ℚ) : ℚ × ℚ :=
  if !hp.use_trailing_stop then stop_loss
  else
    match side with
    | Side.long =>
      let activation_price := pos.entry_price * (1 + hp.trail_activation / 100)
      if s.price ≥ activation_price then
        let new_sl := s.price * (1 - hp.trail_offset / 100)
        if new_sl > stop_loss.2 then (pos.qty, new_sl) else stop_loss
      else stop_loss
    | Side.short =>
      let activation_price := pos.entry_price * (1 - hp.trail_activation / 100)
      if s.price ≤ activation_price then
        let new_sl := s.price * (1 + hp.trail_offset / 100)
        if new_sl < stop_loss.2 then (pos.qty, new_sl) else stop_loss
      else stop_loss
    | Side.flat => stop_loss

/-- Outcome of the external `requests.post` call, supplied as an oracle:
either it returns, or it raises an exception carrying a message. -/
inductive HttpOutcome
  | ok
  | err (msg : String)
deriving Repr, DecidableEq

/-- The strategy's order instructions and notification flag — everything
the claims call "trading state". -/
structure TradingState where
  buy : Option (ℚ × ℚ)
  sell : Option (ℚ × ℚ)
  take_profit : Option (ℚ × ℚ)
  stop_loss : Option (ℚ × ℚ)
  telegram_sent : Bool
deriving Repr, DecidableEq

/-- The call `requests.post(url, data=data, timeout=5)` under the oracle outcome:
raising is `Except.error`. -/
def requests_post (outcome : HttpOutcome) : Except String Unit :=
  match outcome with
  | HttpOutcome.ok => Except.ok ()
  | HttpOutcome.err e => Except.error e

/-- Method `send_telegram_notification`: returns unchanged when `telegram_token`
or `telegram_chat_id` is empty (Python `not token or not chat_id`);
otherwise performs the POST inside `try/except Exception`, which catches
any raise and discards it after logging.  The result pairs the (untouched)
trading state with whether an HTTP call was attempted; a propagated
exception would be `Except.error`. -/
def send_telegram_notification (hp : HParams) (post : HttpOutcome)
    (ts : TradingState) : Except String (TradingState × Bool) :=
  let token := hp.telegram_token
  let chat_id := hp.telegram_chat_id
  if token = "" || chat_id = "" then Except.ok (ts, false)
  else
    match requests_post post with
    | Except.ok _ => Except.ok (ts, true)
    | Except.error _e => Except.ok (ts, true)

/-- Method `on_close_position`: returns when `telegram_token` or
`telegram_chat_id` is empty; otherwise performs the POST inside the same
`try/except Exception`. -/
def on_close_position (hp : HParams) (post : HttpOutcome)
    (ts : TradingState) : Except String (TradingState × Bool) :=
  if hp.telegram_token = "" || hp.telegram_chat_id = "" then Except.ok (ts, false)
  else
    match requests_post post with
    | Except.ok _ => Except.ok (ts, true)
    | Except.error _e => Except.ok (ts, true)

/-- Spec-side definition for the sustained-volume count: the length of
the maximal suffix of the (volume, volume-EMA) sequence in which every
bar's volume strictly exceeds the volume-EMA value at that bar. -/
def suffixRunLen (vols emas : List ℚ) : ℕ :=
  ((vols.zip emas).reverse.takeWhile (fun p => decide (p.2 < p.1))).length

/-! Concrete inputs used by counterexamples and witnesses. -/

/-- Empty trading state. -/
def emptyTS : TradingState := ⟨none, none, none, none, false⟩

/-- C1: a window whose volume-EMA history is shorter than
`growth_lookback + 1`. -/
def c1_state : State := ⟨[], [], [], [], 0, 0, 0⟩

/-- C1: growth filter enabled with the default `min_growth_percent = 15`,
`growth_lookback = 5`. -/
def c1_hp : HParams :=
  ⟨1400, 10, 1440, true, 15, 5, true, 2, true, 55, 4, 2, true, 2, 1, true, "", ""⟩

/-- C4: single bullish candle, volume 1200 = 12 × volume-EMA 100. -/
def c4_candle : Candle := ⟨0, 100, 110, 111, 99, 1200⟩

/-- C4: close 110 > open 100, trend EMA 105 < close, volume EMA 100. -/
def c4_state : State := ⟨[c4_candle], [100], [105], [50], 100, 110, 110⟩

/-- C4: `volume_multiplier = 10`, growth/sustained/RSI filters disabled,
`use_ema_sl = true`, `tp_percent = 4`. -/
def c4_hp : HParams :=
  ⟨1400, 10, 1440, false, 15, 5, false, 2, false, 55, 4, 2, true, 2, 1, true, "", ""⟩

/-- C6: hyperparameters with an empty `telegram_token`. -/
def c6_hp : HParams :=
  ⟨1400, 10, 1440, true, 15, 5, true, 2, true, 55, 4, 2, true, 2, 1, true, "", "chat42"⟩

/-- C7: latest volume exactly `volume_multiplier ×` latest volume-EMA. -/
def c7_state : State := ⟨[⟨0, 0, 0, 0, 0, 100⟩], [100], [], [], 0, 0, 0⟩

/-- C7: `volume_multiplier = 1`, so volume 100 = 1 × 100 sits exactly on
the boundary. -/
def c7_hp : HParams :=
  ⟨1400, 1, 1440, true, 15, 5, true, 2, true, 55, 4, 2, true, 2, 1, true, "", ""⟩

/-- C8: volumes 1, 10, 10 against volume-EMA 2, 2, 2 — the two most
recent bars exceed the EMA, the third most recent does not. -/
def c8_state : State :=
  ⟨[⟨0, 0, 0, 0, 0, 1⟩, ⟨0, 0, 0, 0, 0, 10⟩, ⟨0, 0, 0, 0, 0, 10⟩],
   [2, 2, 2], [], [], 0, 0, 0⟩

/-- C8: sustained-volume filter on with `min_consecutive_bars = 2`. -/
def c8_hp : HParams :=
  ⟨1400, 10, 1440, true, 15, 5, true, 2, true, 55, 4, 2, true, 2, 1, true, "", ""⟩

/-- C9: all three optional volume filters disabled. -/
def c9_hp : HParams :=
  ⟨1400, 10, 1440, false, 15, 5, false, 2, false, 55, 4, 2, true, 2, 1, true, "", ""⟩

/-- C9: an arbitrary small state. -/
def c9_state : State := ⟨[], [], [], [7], 0, 0, 0⟩

/-- C10: volume-EMA history `[0, 0, 0]` — long enough for
`growth_lookback = 2` and with past EMA value 0. -/
def c10_state : State := ⟨[], [0, 0, 0], [], [], 0, 0, 0⟩

/-- C10: `growth_lookback = 2`, so the history is exactly long enough and
the EMA value 3 bars back is 0. -/
def c10_hp : HParams :=
  ⟨1400, 10, 1440, true, 15, 2, true, 2, true, 55, 4, 2, true, 2, 1, true, "", ""⟩

/-- C10: `growth_lookback = 5` makes the same history insufficient. -/
def c10_hp_insuff : HParams :=
  ⟨1400, 10, 1440, true, 15, 5, true, 2, true, 55, 4, 2, true, 2, 1, true, "", ""⟩

/-! ## Theorems -/

/-- C3: `should_long` and `should_short` are never both true: the
directional conditions `close > open` and `close < open` (and likewise
the trend conditions) are opposite-signed strict comparisons, so at most
one entry signal fires per tick. -/
theorem should_long_short_mutually_exclusive (s : State) (hp : HParams) :
    (should_long s hp && should_short s hp) = false := by
  unfold should_long should_short
  by_cases h : s.close > s.openPrice
  · have h2 : ¬ s.close < s.openPrice := asymm h
    simp [h2]
  · simp [h]

/-- C4: in the concrete scenario (bullish candle, close above the trend
EMA, volume 12 × volume-EMA with multiplier 10, growth/sustained/RSI
filters disabled), `should_long` returns true, and `go_long` with
`use_ema_sl = true` and `tp_percent = 4` sets the take-profit price to
`price × 1.04` and the stop-loss price to the trend EMA's latest value. -/
theorem long_scenario_entry_and_orders :
    should_long c4_state c4_hp = true ∧
    (go_long c4_state c4_hp 1).take_profit = some (1, c4_state.price * (104 / 100)) ∧
    (go_long c4_state c4_hp 1).stop_loss = some (1, latest c4_state.ema_trend) := by
  refine ⟨?_, ?_, ?_⟩ <;>
    norm_num [should_long, volume_spike, check_volume_growth, check_sustained_volume,
      check_volume_rsi_filter, current_volume, latest, go_long,
      c4_state, c4_hp, c4_candle]

/-- C9: when an optional filter's enabling flag is false, the
corresponding check returns true regardless of indicator values. -/
theorem disabled_filters_always_pass (s : State) (hp : HParams) :
    (hp.use_volume_growth = false → check_volume_growth s hp = true) ∧
    (hp.use_sustained_volume = false → check_sustained_volume s hp = true) ∧
    (hp.use_volume_rsi = false → check_volume_rsi_filter s hp = true) := by
  refine ⟨?_, ?_, ?_⟩ <;> intro h <;>
    simp [check_volume_growth, check_sustained_volume, check_volume_rsi_filter, h]

/-- C9 witness: with all three flags off, all three checks pass on a
concrete state. -/
theorem disabled_filters_always_pass_witness :
    check_volume_growth c9_state c9_hp = true ∧
    check_sustained_volume c9_state c9_hp = true ∧
    check_volume_rsi_filter c9_state c9_hp = true :=
  ⟨(disabled_filters_always_pass c9_state c9_hp).1 rfl,
   (disabled_filters_always_pass c9_state c9_hp).2.1 rfl,
   (disabled_filters_always_pass c9_state c9_hp).2.2 rfl⟩

/-- C10: `ema_volume_growth` is total and never evaluates the
percent-change quotient with a zero denominator: with insufficient
history it returns 0, and with sufficient history but a zero past EMA
value it also returns 0. -/
theorem ema_volume_growth_no_div_by_zero (s : State) (hp : HParams) :
    (s.ema_volume.length < hp.growth_lookback + 1 → ema_volume_growth s hp = 0) ∧
    (hp.growth_lookback + 1 ≤ s.ema_volume.length →
      s.ema_volume.getD (s.ema_volume.length - (hp.growth_lookback + 1)) 0 = 0 →
      ema_volume_growth s hp = 0) := by
  constructor
  · intro h
    simp [ema_volume_growth, h]
  · intro h hz
    simp only [ema_volume_growth]
    rw [if_neg (by omega), hz]
    simp

/-- C10 witness: with history `[0, 0, 0]`, lookback 5 hits the
insufficient-history guard and lookback 2 hits the zero-denominator
guard; both return 0. -/
theorem ema_volume_growth_no_div_by_zero_witness :
    ema_volume_growth c10_state c10_hp_insuff = 0 ∧
    ema_volume_growth c10_state c10_hp = 0 :=
  ⟨(ema_volume_growth_no_div_by_zero c10_state c10_hp_insuff).1 (by decide),
   (ema_volume_growth_no_div_by_zero c10_state c10_hp).2 (by decide) (by decide)⟩

/-- C1 counterexample: with the growth filter enabled at its default
`min_growth_percent = 15` and an empty volume-EMA history (insufficient
for `growth_lookback = 5`), `check_volume_growth` returns false — the
claim says insufficient history passes the enabled filter, but the code
compares the neutral growth value 0 against `min_growth_percent`. -/
theorem growth_filter_insufficient_history_fails :
    c1_state.ema_volume.length < c1_hp.growth_lookback + 1 ∧
    c1_hp.use_volume_growth = true ∧
    check_volume_growth c1_state c1_hp = false := by
  decide

/-- C1 (amended): with insufficient history and the growth filter
enabled, `ema_volume_growth` returns the neutral value 0 and
`check_volume_growth` passes iff `min_growth_percent ≤ 0`; in the
declared range `min_growth_percent ∈ [5, 30]` the filter therefore
fails, unlike disabling it. -/
theorem growth_filter_insufficient_history (s : State) (hp : HParams)
    (hlen : s.ema_volume.length < hp.growth_lookback + 1)
    (hu : hp.use_volume_growth = true) :
    ema_volume_growth s hp = 0 ∧
    (check_volume_growth s hp = true ↔ hp.min_growth_percent ≤ 0) := by
  have h0 : ema_volume_growth s hp = 0 := by
    simp [ema_volume_growth, hlen]
  refine ⟨h0, ?_⟩
  simp [check_volume_growth, hu, h0]

/-- C1 witness: the amended statement at the concrete counterexample
input. -/
theorem growth_filter_insufficient_history_witness :
    ema_volume_growth c1_state c1_hp = 0 ∧
    (check_volume_growth c1_state c1_hp = true ↔ c1_hp.min_growth_percent ≤ 0) :=
  growth_filter_insufficient_history c1_state c1_hp (by decide) rfl

/-- C6: with an empty `telegram_token`, neither
`send_telegram_notification` nor `on_close_position` attempts an HTTP
call (attempt flag false), neither raises, and the trading state is
unchanged — for every outcome the transport would have had. -/
theorem telegram_empty_token_no_call (hp : HParams) (post : HttpOutcome)
    (ts : TradingState) (h : hp.telegram_token = "") :
    send_telegram_notification hp post ts = Except.ok (ts, false) ∧
    on_close_position hp post ts = Except.ok (ts, false) := by
  constructor <;> simp [send_telegram_notification, on_close_position, h]

/-- C6 witness: concrete hyperparameters with empty token. -/
theorem telegram_empty_token_no_call_witness :
    send_telegram_notification c6_hp HttpOutcome.ok emptyTS = Except.ok (emptyTS, false) ∧
    on_close_position c6_hp HttpOutcome.ok emptyTS = Except.ok (emptyTS, false) :=
  telegram_empty_token_no_call c6_hp HttpOutcome.ok emptyTS rfl

/-- C5: if the HTTP POST raises any exception, both
`send_telegram_notification` and `on_close_position` catch it and return
normally (`Except.ok`), with the trading state exactly as before the
send attempt. -/
theorem telegram_exception_swallowed (hp : HParams) (ts : TradingState) (e : String) :
    (∃ b, send_telegram_notification hp (HttpOutcome.err e) ts = Except.ok (ts, b)) ∧
    (∃ b, on_close_position hp (HttpOutcome.err e) ts = Except.ok (ts, b)) := by
  refine ⟨?_, ?_⟩ <;>
  · by_cases h1 : hp.telegram_token = ""
    · exact ⟨false, by
        simp [send_telegram_notification, on_close_position, requests_post, h1]⟩
    · by_cases h2 : hp.telegram_chat_id = ""
      · exact ⟨false, by
          simp [send_telegram_notification, on_close_position, requests_post, h1, h2]⟩
      · exact ⟨true, by
          simp [send_telegram_notification, on_close_position, requests_post, h1, h2]⟩

/-- Python `xs[-1]` agrees with `List.getLast` on nonempty lists. -/
theorem latest_eq_getLast (l : List ℚ) (h : l ≠ []) : latest l = l.getLast h := by
  unfold latest
  rw [List.getLast_eq_getElem]
  exact List.getD_eq_getElem l 0 (Nat.sub_lt (List.length_pos.mpr h) Nat.one_pos)

/-- Accessor `current_volume` is the last candle's volume column. -/
theorem current_volume_eq_getLast (s : State) (hc : s.candles ≠ []) :
    current_volume s = (s.candles.getLast hc).volume := by
  unfold current_volume
  rw [latest_eq_getLast _ (by simpa [List.map_eq_nil_iff] using hc)]
  rw [List.getLast_map]

/-- C7: `volume_spike` returns true iff the latest candle's volume is
strictly greater than `volume_multiplier` times the latest volume-EMA
value; at exact equality it returns false. -/
theorem volume_spike_strict_boundary (s : State) (hp : HParams)
    (hc : s.candles ≠ []) (he : s.ema_volume ≠ []) :
    (volume_spike s hp = true ↔
      hp.volume_multiplier * s.ema_volume.getLast he < (s.candles.getLast hc).volume) ∧
    ((s.candles.getLast hc).volume = hp.volume_multiplier * s.ema_volume.getLast he →
      volume_spike s hp = false) := by
  have hcv := current_volume_eq_getLast s hc
  have hev := latest_eq_getLast s.ema_volume he
  constructor
  · simp only [volume_spike, decide_eq_true_eq, gt_iff_lt]
    rw [hcv, hev, mul_comm]
  · intro hb
    simp only [volume_spike, decide_eq_false_iff_not, gt_iff_lt, not_lt]
    rw [hcv, hev, hb, mul_comm]

/-- C7 witness: a concrete state with the latest volume exactly equal to
`volume_multiplier ×` the latest volume-EMA, where the spike is false. -/
theorem volume_spike_strict_boundary_witness :
    volume_spike c7_state c7_hp = false :=
  (volume_spike_strict_boundary c7_state c7_hp (by decide) (by decide)).2
    (by simp [c7_state, c7_hp])

/-- A single long `update_position` call either leaves the stop-loss
order unchanged, or replaces it with the trailing candidate
`price * (1 - trail_offset / 100)` at a strictly higher price. -/
theorem update_position_long_step (s : State) (hp : HParams) (pos : Position)
    (sl : ℚ × ℚ) :
    update_position s hp Side.long pos sl = sl ∨
      (sl.2 < (update_position s hp Side.long pos sl).2 ∧
        update_position s hp Side.long pos sl
          = (pos.qty, s.price * (1 - hp.trail_offset / 100))) := by
  unfold update_position
  dsimp only
  split
  · exact Or.inl rfl
  · split
    · split
      · rename_i hgt
        exact Or.inr ⟨hgt, rfl⟩
      · exact Or.inl rfl
    · exact Or.inl rfl

/-- A single short `update_position` call either leaves the stop-loss
order unchanged, or replaces it with the trailing candidate
`price * (1 + trail_offset / 100)` at a strictly lower price. -/
theorem update_position_short_step (s : State) (hp : HParams) (pos : Position)
    (sl : ℚ × ℚ) :
    update_position s hp Side.short pos sl = sl ∨
      ((update_position s hp Side.short pos sl).2 < sl.2 ∧
        update_position s hp Side.short pos sl
          = (pos.qty, s.price * (1 + hp.trail_offset / 100))) := by
  unfold update_position
  dsimp only
  split
  · exact Or.inl rfl
  · split
    · split
      · rename_i hlt
        exact Or.inr ⟨hlt, rfl⟩
      · exact Or.inl rfl
    · exact Or.inl rfl

/-- Folding long `update_position` calls never lowers the stop-loss price. -/
theorem foldl_update_long_mono (hp : HParams) (pos : Position) :
    ∀ (l : List State) (sl : ℚ × ℚ),
      sl.2 ≤ (l.foldl (fun acc s => update_position s hp Side.long pos acc) sl).2
  | [], _ => le_refl _
  | s :: t, sl => by
    rw [List.foldl_cons]
    rcases update_position_long_step s hp pos sl with h | h
    · rw [h]
      exact foldl_update_long_mono hp pos t sl
    · exact le_trans (le_of_lt h.1) (foldl_update_long_mono hp pos t _)

/-- Folding short `update_position` calls never raises the stop-loss price. -/
theorem foldl_update_short_mono (hp : HParams) (pos : Position) :
    ∀ (l : List State) (sl : ℚ × ℚ),
      (l.foldl (fun acc s => update_position s hp Side.short pos acc) sl).2 ≤ sl.2
  | [], _ => le_refl _
  | s :: t, sl => by
    rw [List.foldl_cons]
    rcases update_position_short_step s hp pos sl with h | h
    · rw [h]
      exact foldl_update_short_mono hp pos t sl
    · exact le_trans (foldl_update_short_mono hp pos t _) (le_of_lt h.1)

/-- C2: for a long position `update_position` replaces the stop-loss
only by the candidate `price × (1 − trail_offset/100)` and only when it
is strictly higher, so over every sequence of calls the long stop-loss
price is monotonically non-decreasing; symmetrically the short stop-loss
is replaced only when strictly lower and is non-increasing. -/
theorem trailing_stop_ratchet (hp : HParams) (pos : Position) (sl : ℚ × ℚ) :
    (∀ s : State, update_position s hp Side.long pos sl = sl ∨
        (sl.2 < (update_position s hp Side.long pos sl).2 ∧
          update_position s hp Side.long pos sl
            = (pos.qty, s.price * (1 - hp.trail_offset / 100)))) ∧
    (∀ s : State, update_position s hp Side.short pos sl = sl ∨
        ((update_position s hp Side.short pos sl).2 < sl.2 ∧
          update_position s hp Side.short pos sl
            = (pos.qty, s.price * (1 + hp.trail_offset / 100)))) ∧
    (∀ l : List State,
        sl.2 ≤ (l.foldl (fun acc s => update_position s hp Side.long pos acc) sl).2) ∧
    (∀ l : List State,
        (l.foldl (fun acc s => update_position s hp Side.short pos acc) sl).2 ≤ sl.2) :=
  ⟨fun s => update_position_long_step s hp pos sl,
   fun s => update_position_short_step s hp pos sl,
   fun l => foldl_update_long_mono hp pos l sl,
   fun l => foldl_update_short_mono hp pos l sl⟩

/-- The count `consecCount` only looks at indices below its fuel argument. -/
theorem consecCount_congr (v1 v2 e1 e2 : List ℚ) :
    ∀ n : ℕ, (∀ i, i < n → v1.getD i 0 = v2.getD i 0) →
      (∀ i, i < n → e1.getD i 0 = e2.getD i 0) →
      consecCount v1 e1 n = consecCount v2 e2 n
  | 0, _, _ => rfl
  | n + 1, hv, he => by
    simp only [consecCount]
    rw [hv n (Nat.lt_succ_self n), he n (Nat.lt_succ_self n),
      consecCount_congr v1 v2 e1 e2 n
        (fun i hi => hv i (Nat.lt_succ_of_lt hi))
        (fun i hi => he i (Nat.lt_succ_of_lt hi))]

/-- The backward-scanning loop of `consecutive_volume_bars` computes the
length of the maximal strictly-exceeding suffix. -/
theorem consecCount_eq_suffixRunLen (vols : List ℚ) :
    ∀ emas : List ℚ, emas.length = vols.length →
      consecCount vols emas vols.length = suffixRunLen vols emas := by
  induction vols using List.reverseRecOn with
  | nil =>
    intro emas h
    simp [consecCount, suffixRunLen]
  | append_singleton xs x ih =>
    intro emas h
    have hne : emas ≠ [] := by
      intro hnil
      rw [hnil] at h
      simp at h
    have hsplit : emas.dropLast ++ [emas.getLast hne] = emas :=
      List.dropLast_append_getLast hne
    have hlen : emas.dropLast.length = xs.length := by
      rw [List.length_dropLast]
      simp at h
      omega
    have hlen2 : (xs ++ [x]).length = xs.length + 1 := by simp
    rw [hlen2]
    simp only [consecCount]
    have hx : (xs ++ [x]).getD xs.length 0 = x := by
      rw [List.getD_append_right _ _ _ _ (le_refl _)]
      simp
    have hyv : emas.getD xs.length 0 = emas.getLast hne := by
      conv_lhs => rw [← hsplit]
      rw [List.getD_append_right _ _ _ _ (by omega)]
      simp [hlen]
    have hdrop : consecCount (xs ++ [x]) emas xs.length = consecCount xs emas.dropLast xs.length := by
      apply consecCount_congr
      · intro i hi
        exact List.getD_append _ _ _ _ hi
      · intro i hi
        conv_lhs => rw [← hsplit]
        exact List.getD_append _ _ _ _ (by omega)
    have hzip : (xs ++ [x]).zip emas = xs.zip emas.dropLast ++ [(x, emas.getLast hne)] := by
      conv_lhs => rw [← hsplit]
      rw [List.zip_append (by omega)]
      rfl
    have hrhs : suffixRunLen (xs ++ [x]) emas
        = if emas.getLast hne < x then suffixRunLen xs emas.dropLast + 1 else 0 := by
      unfold suffixRunLen
      rw [hzip, List.reverse_append]
      simp only [List.reverse_cons, List.reverse_nil, List.nil_append, List.singleton_append,
        List.takeWhile_cons]
      by_cases hxy : emas.getLast hne < x
      · simp [hxy]
      · simp [hxy]
    rw [hx, hyv, hdrop, hrhs, ih emas.dropLast hlen]

/-- C8: `consecutive_volume_bars` equals the length of the maximal
suffix of the candle window in which every bar's volume strictly exceeds
the volume-EMA value at that bar, and with the filter enabled
`check_sustained_volume` passes iff that count is at least
`min_consecutive_bars`. -/
theorem sustained_volume_suffix_count (s : State) (hp : HParams)
    (hlen : s.ema_volume.length = s.candles.length) :
    consecutive_volume_bars s
        = suffixRunLen (s.candles.map Candle.volume) s.ema_volume ∧
    (hp.use_sustained_volume = true →
      (check_sustained_volume s hp = true ↔
        hp.min_consecutive_bars ≤ consecutive_volume_bars s)) := by
  constructor
  · unfold consecutive_volume_bars
    have hl : s.ema_volume.length = (s.candles.map Candle.volume).length := by
      simp [hlen]
    have hmain := consecCount_eq_suffixRunLen (s.candles.map Candle.volume) s.ema_volume hl
    rw [← hmain]
    simp
  · intro hu
    simp [check_sustained_volume, hu, ge_iff_le]

/-- C8 witness: volumes 1, 10, 10 against volume-EMA 2, 2, 2 give count
2, matching the suffix length, and the filter with
`min_consecutive_bars = 2` passes. -/
theorem sustained_volume_suffix_count_witness :
    consecutive_volume_bars c8_state
        = suffixRunLen (c8_state.candles.map Candle.volume) c8_state.ema_volume ∧
    (check_sustained_volume c8_state c8_hp = true ↔
      c8_hp.min_consecutive_bars ≤ consecutive_volume_bars c8_state) := by
  have h := sustained_volume_suffix_count c8_state c8_hp (by decide)
  exact ⟨h.1, h.2 rfl⟩

end BigFrish
